import Mathlib

/-!
Shallow embedding of the retail chat agent repository (two Python variants:
`claudandlanggraph.py`, embedded in namespace `LG`, and `claudeonly.py`,
embedded in namespace `CO`).  The external completion client (the Anthropic
API call) is the single source of nondeterminism and failure; it is modelled
by passing its outcome, an `Except String String` (error detail or reply
text), as an explicit argument to the functions that call it.  Everything
else in the source is pure and is translated directly.
-/

/-- A role-tagged chat message, as the dicts `{"role": ..., "content": ...}`
used throughout both source files. -/
structure Message where
  role : String
  content : String
deriving Repr, DecidableEq

/-- A catalog entry, as the per-product dicts of `PRODUCT_DB`.  The price is
a decimal number, modelled exactly as a rational. -/
structure Product where
  name : String
  price : ℚ
  specs : String
  availability : String
  category : String
deriving Repr, DecidableEq

/-- A product catalog: the insertion-ordered mapping from product key to
product, as the Python dict `PRODUCT_DB`. -/
abbrev Catalog := List (String × Product)

/-- The module-level product database, identical in both source files. -/
def PRODUCT_DB : Catalog :=
  [ ("laptop",
      { name := "ProBook X1", price := 999.99,
        specs := "13-inch, 16GB RAM, 512GB SSD",
        availability := "In Stock", category := "Electronics" }),
    ("headphones",
      { name := "SoundMax Pro", price := 149.99,
        specs := "Wireless, Noise-cancelling",
        availability := "Limited Stock", category := "Electronics" }),
    ("smartphone",
      { name := "GalaxyTech Pro", price := 899.99,
        specs := "6.7-inch OLED, 256GB Storage, 5G",
        availability := "In Stock", category := "Electronics" }),
    ("smartwatch",
      { name := "FitTrack Elite", price := 299.99,
        specs := "Always-on Display, Heart Rate, GPS",
        availability := "In Stock", category := "Electronics" }),
    ("tablet",
      { name := "SlateBook Air", price := 649.99,
        specs := "10.9-inch, 128GB, WiFi+5G",
        availability := "Limited Stock", category := "Electronics" }),
    ("camera",
      { name := "PhotoPro X100", price := 1299.99,
        specs := "24MP, 4K Video, Mirrorless",
        availability := "In Stock", category := "Electronics" }) ]

/-- Catalog lookup, the Python dict access `PRODUCT_DB.get(key)`: the value
at the first matching key, or absent. -/
def catalogLookup (key : String) : Option Product :=
  PRODUCT_DB.lookup key

/-- Renders a price (a two-decimal amount) the way Python prints these float
literals inside `json.dumps`, e.g. `999.99`. -/
def renderPrice (q : ℚ) : String :=
  let c : Nat := (q * 100).num.toNat
  toString (c / 100) ++ "." ++
    (if c % 100 < 10 then "0" ++ toString (c % 100) else toString (c % 100))

/-- One product rendered as `json.dumps` with `indent=2` renders the nested
dict (opening brace on the key line, inner keys at four spaces, closing
brace at two). -/
def productJson (p : Product) : String :=
  "\x7b\n    \"name\": \"" ++ p.name ++ "\",\n    \"price\": " ++
    renderPrice p.price ++ ",\n    \"specs\": \"" ++ p.specs ++
    "\",\n    \"availability\": \"" ++ p.availability ++
    "\",\n    \"category\": \"" ++ p.category ++ "\"\n  \x7d"

/-- `json.dumps(self.product_db, indent=2)`: the whole catalog as indented
JSON text. -/
def jsonDumpsCatalog (db : Catalog) : String :=
  "\x7b\n" ++
    String.intercalate ",\n"
      (db.map (fun kp => "  \"" ++ kp.1 ++ "\": " ++ productJson kp.2)) ++
    "\n\x7d"

/-- The transcript formatter shared by both files
(`_format_conversation_history` in `claudandlanggraph.py`, and the inline
comprehension in `create_prompt` of `claudeonly.py`): one
`Customer:`/`Assistant:` line per message, joined by newlines. -/
def formatTranscript (messages : List Message) : String :=
  String.intercalate "\n"
    (messages.map (fun msg =>
      (if msg.role == "user" then "Customer" else "Assistant") ++ ": " ++
        msg.content))

/-- The fixed apology string both files substitute for a failed completion
call. -/
def apologyText : String :=
  "I apologize, but I encountered an error. Please try again."

/-- The error message of the `ValueError` raised by both constructors when
no usable API key is found. -/
def missingKeyError : String := "ANTHROPIC_API_KEY not found"

/-- `api_key or os.getenv('ANTHROPIC_API_KEY')` in both constructors:
a truthy (non-empty, non-None) argument wins, otherwise the environment
value (which may itself be absent or empty). -/
def resolveApiKey (apiKey envKey : Option String) : Option String :=
  match apiKey with
  | some s => if s = "" then envKey else some s
  | none => envKey

namespace CO

/-- The agent object of `claudeonly.py`: `__init__` stores the key, the
catalog and an empty history (the unused `self.state` dict is omitted;
nothing ever reads it). -/
structure Agent where
  api_key : String
  product_db : Catalog
  history : List Message
deriving Repr, DecidableEq

/-- The agent a successful `__init__` produces: the resolved key, the
module catalog, and an empty history. -/
def freshAgent (key : String) : Agent :=
  { api_key := key, product_db := PRODUCT_DB, history := [] }

/-- `RetailChatAgent.__init__(api_key)` of `claudeonly.py` (the key check is
line-for-line the same in `claudandlanggraph.py`): resolve the key from the
argument or the environment, raise `ValueError` if it is missing or empty,
otherwise construct the agent.  No completion-client call occurs here: the
constructor only stores the key and static data. -/
def initAgent (apiKey envKey : Option String) : Except String Agent :=
  match resolveApiKey apiKey envKey with
  | none => Except.error missingKeyError
  | some key =>
      if key = "" then Except.error missingKeyError
      else Except.ok (freshAgent key)

/-- The history window `self.history[-5:]` used by `create_prompt`: Python's
negative slice takes the last `min 5 length` elements (truncated
subtraction makes the start index clamp at zero exactly as the slice
does). -/
def recentWindow (history : List Message) : List Message :=
  history.drop (history.length - 5)

/-- `RetailChatAgent.create_prompt` of `claudeonly.py`: the fixed persona
paragraph, the full catalog as JSON, the transcript of the last five
history entries, and the new customer message, with the literal indentation
of the Python triple-quoted f-string. -/
def create_prompt (db : Catalog) (history : List Message)
    (user_message : String) : String :=
  let conversation_history := formatTranscript (recentWindow history)
  "You are a helpful retail assistant for an electronics store. Help customers with product information, \n        availability, and general inquiries. Be concise but friendly. When mentioning prices, always include the currency symbol ($).\n\n        Available Products:\n        " ++
    jsonDumpsCatalog db ++
    "\n\n        Previous Conversation:\n        " ++ conversation_history ++
    "\n\n        Customer: " ++ user_message

/-- `RetailChatAgent.chat` of `claudeonly.py`.  The whole body is one
`try`: the prompt is built, the completion client is called (its outcome is
the `result` argument), and only on success are the user and assistant
messages appended to `self.history` and the reply returned; any exception
is caught and the fixed apology string is returned with the agent left as
it was. -/
def chat (agent : Agent) (message : String) (result : Except String String) :
    Agent × String :=
  let _prompt := create_prompt agent.product_db agent.history message
  match result with
  | Except.ok reply =>
      ({ agent with
          history := agent.history ++
            [{ role := "user", content := message },
             { role := "assistant", content := reply }] },
        reply)
  | Except.error _ => (agent, apologyText)

/-- Runs `chat` over a sequence of (message, completion outcome) turns,
threading the agent, as the interactive loop does. -/
def runTurns (agent : Agent) :
    List (String × Except String String) → Agent
  | [] => agent
  | (m, r) :: rest => runTurns (chat agent m r).1 rest

/-- The transcript a sequence of all-successful turns should leave in
history: one user and one assistant message per turn, in order. -/
def expectedHistory : List (String × String) → List Message
  | [] => []
  | (m, reply) :: rest =>
      { role := "user", content := m } ::
        { role := "assistant", content := reply } :: expectedHistory rest

end CO

/-- Roles strictly alternate starting from `r` (flipping between `"user"`
and `"assistant"`). -/
def altFrom (r : String) : List Message → Bool
  | [] => true
  | m :: rest =>
      m.role == r && altFrom (if r == "user" then "assistant" else "user") rest

namespace LG

/-- The `AgentState` TypedDict of `claudandlanggraph.py`.  `context` is a
dict holding only the product database, modelled by its one entry. -/
structure AgentState where
  messages : List Message
  current_step : String
  context_product_db : Catalog
  product_db : Catalog
  query_type : Option String
  mentioned_products : List String
  completed : Bool
deriving Repr, DecidableEq

/-- The prompt text built inside `process_step` of `claudandlanggraph.py`
from the agent catalog, the prior messages `state['messages'][:-1]` and the
current message content `state['messages'][-1]['content']`, with the
literal indentation of the Python triple-quoted f-string. -/
def processPrompt (db : Catalog) (prior : List Message) (current : String) :
    String :=
  "You are a helpful retail assistant. Help customers with product information, \n            availability, and general inquiries. Be concise but friendly.\n\n            Available Products:\n            " ++
    jsonDumpsCatalog db ++
    "\n\n            Previous Conversation:\n            " ++
    formatTranscript prior ++
    "\n\n            Current Customer Message:\n            " ++ current

/-- `RetailChatAgent.process_step` of `claudandlanggraph.py`.  Inside one
`try`: the prompt is built (indexing `state['messages'][-1]` raises if the
message list is empty, which the `except` also catches), the completion
client is called (outcome `result`), and the reply is appended as an
assistant message with `completed` set; on any exception the apology is
appended instead, with `completed` likewise set. -/
def process_step (db : Catalog) (state : AgentState)
    (result : Except String String) : AgentState :=
  match state.messages.getLast? with
  | none =>
      { state with
          messages := state.messages ++
            [{ role := "assistant", content := apologyText }],
          completed := true }
  | some last =>
      let _prompt := processPrompt db state.messages.dropLast last.content
      match result with
      | Except.ok reply =>
          { state with
              messages := state.messages ++
                [{ role := "assistant", content := reply }],
              completed := true }
      | Except.error _ =>
          { state with
              messages := state.messages ++
                [{ role := "assistant", content := apologyText }],
              completed := true }

/-- `RetailChatAgent.should_continue`: `"end"` once the state is completed,
otherwise `"process"`. -/
def should_continue (state : AgentState) : String :=
  if state.completed then "end" else "process"

/-- The compiled graph of `_create_chat_graph`: from the entry point it
runs the single `process` node, then follows the conditional edge chosen by
`should_continue` — back to `process` or to `END`.  `fuel` bounds the
number of node executions (the langgraph runtime has such a recursion
limit); each execution consumes one completion outcome from `results`. -/
def runGraph (db : Catalog) : Nat → AgentState →
    List (Except String String) → AgentState
  | 0, state, _ => state
  | fuel + 1, state, results =>
      let next := process_step db state
        (results.headD (Except.error "no completion result"))
      if should_continue next = "end" then next
      else runGraph db fuel next results.tail

/-- The fresh state built by `chat` when it is called without a state. -/
def initialState (db : Catalog) : AgentState :=
  { messages := [], current_step := "process", context_product_db := db,
    product_db := db, query_type := none, mentioned_products := [],
    completed := false }

/-- `RetailChatAgent.chat` of `claudandlanggraph.py`: build or reset the
state, append the user message, and invoke the compiled graph (with `fuel`
node executions allowed and `result` as the completion outcome of the
turn). -/
def chat (db : Catalog) (fuel : Nat) (stateArg : Option AgentState)
    (message : String) (result : Except String String) : AgentState :=
  let state := match stateArg with
    | none => initialState db
    | some s => { s with completed := false }
  let state := { state with
    messages := state.messages ++ [{ role := "user", content := message }] }
  runGraph db fuel state [result]

/-- Runs `chat` over a sequence of (message, completion outcome) turns the
way the interactive loop does: the first call passes no state, each later
call passes the state returned by the previous one. -/
def runTurns (db : Catalog) (fuel : Nat) :
    List (String × Except String String) → Option AgentState → Option AgentState
  | [], acc => acc
  | (m, r) :: rest, acc => runTurns db fuel rest (some (chat db fuel acc m r))

/-- The message list left by a sequence of turns started from no state. -/
def historyAfter (db : Catalog) (fuel : Nat)
    (turns : List (String × Except String String)) : List Message :=
  match runTurns db fuel turns none with
  | none => []
  | some s => s.messages

/-- The assistant text a turn produces for a given completion outcome: the
reply on success, the apology on failure. -/
def turnReply : Except String String → String
  | Except.ok reply => reply
  | Except.error _ => apologyText

/-- The transcript a sequence of turns leaves in the message list: one user
and one assistant message per turn, in order. -/
def expectedMessages : List (String × Except String String) → List Message
  | [] => []
  | (m, r) :: rest =>
      { role := "user", content := m } ::
        { role := "assistant", content := turnReply r } ::
        expectedMessages rest

end LG

/-- A transcript line as the claim words it (refinement comparison target):
content prefixed by `Customer: ` for role `user` and `Assistant: `
otherwise. -/
def specTranscriptLine (m : Message) : String :=
  (if m.role == "user" then "Customer: " else "Assistant: ") ++ m.content

/-- A concrete twelve-message history for exercising the window slice. -/
def demoTwelve : List Message :=
  (List.range 12).map (fun i => { role := "user", content := toString i })

/-- A concrete three-message history for exercising the window slice. -/
def demoThree : List Message :=
  (List.range 3).map (fun i => { role := "assistant", content := toString i })

/-- Lookup in an association list misses every key outside its key set. -/
theorem lookup_none_of_not_mem (ps : List (String × Product)) (k : String)
    (h : k ∉ ps.map Prod.fst) : ps.lookup k = none := by
  induction ps with
  | nil => rfl
  | cons p rest ih =>
    simp only [List.map_cons, List.mem_cons, not_or] at h
    have hb : (k == p.1) = false := beq_eq_false_iff_ne.mpr h.1
    simp [List.lookup, hb, ih h.2]

namespace LG

/-- Every branch of `process_step` sets the completion flag. -/
theorem process_step_completed (db : Catalog) (s : AgentState)
    (res : Except String String) : (process_step db s res).completed = true := by
  cases hl : s.messages.getLast? <;> cases res <;> simp [process_step, hl]

/-- `process_step` never touches the catalog fields of the state. -/
theorem process_step_db (db : Catalog) (s : AgentState)
    (res : Except String String) :
    (process_step db s res).product_db = s.product_db ∧
    (process_step db s res).context_product_db = s.context_product_db := by
  cases hl : s.messages.getLast? <;> cases res <;> simp [process_step, hl]

/-- A completed state routes the conditional edge to `"end"`. -/
theorem should_continue_of_completed (s : AgentState) (h : s.completed = true) :
    should_continue s = "end" := by
  simp [should_continue, h]

/-- With any positive fuel the graph performs exactly one execution of the
`process` node: the step completes the state, so the conditional edge goes
straight to `END`. -/
theorem runGraph_succ (db : Catalog) (fuel : Nat) (s : AgentState)
    (results : List (Except String String)) :
    runGraph db (fuel + 1) s results =
      process_step db s (results.headD (Except.error "no completion result")) := by
  simp [runGraph, should_continue_of_completed _ (process_step_completed db s _)]

/-- On a state whose message list is non-empty, `process_step` appends
exactly one assistant message carrying `turnReply` of the outcome. -/
theorem process_step_messages (db : Catalog) (s : AgentState)
    (res : Except String String) (m : Message)
    (hs : s.messages.getLast? = some m) :
    (process_step db s res).messages =
      s.messages ++ [{ role := "assistant", content := turnReply res }] := by
  cases res <;> simp [process_step, hs, turnReply]

/-- `runGraph` never touches the catalog fields of the state. -/
theorem runGraph_db (db : Catalog) :
    ∀ (fuel : Nat) (s : AgentState) (results : List (Except String String)),
    (runGraph db fuel s results).product_db = s.product_db ∧
    (runGraph db fuel s results).context_product_db = s.context_product_db := by
  intro fuel
  induction fuel with
  | zero => intro s results; exact ⟨rfl, rfl⟩
  | succ n ih =>
    intro s results
    simp only [runGraph]
    split
    · exact process_step_db db s _
    · obtain ⟨h1, h2⟩ := ih (process_step db s
        (results.headD (Except.error "no completion result"))) results.tail
      rw [h1, h2]
      exact process_step_db db s _

/-- One `chat` call on an existing state appends exactly the user message
and one assistant message. -/
theorem chat_some_messages (db : Catalog) (fuel : Nat) (s : AgentState)
    (m : String) (r : Except String String) :
    (chat db (fuel + 1) (some s) m r).messages =
      s.messages ++ [{ role := "user", content := m },
        { role := "assistant", content := turnReply r }] := by
  simp only [chat, runGraph_succ]
  rw [process_step_messages db _ _ _ (List.getLast?_concat _)]
  simp

/-- One `chat` call without a state produces exactly the user message and
one assistant message. -/
theorem chat_none_messages (db : Catalog) (fuel : Nat) (m : String)
    (r : Except String String) :
    (chat db (fuel + 1) none m r).messages =
      [{ role := "user", content := m },
        { role := "assistant", content := turnReply r }] := by
  simp only [chat, runGraph_succ]
  rw [process_step_messages db _ _ _ (List.getLast?_concat _)]
  simp [initialState]

end LG

namespace LG

/-- Folding turns over an existing state appends exactly the expected
transcript to the message list. -/
theorem runTurns_some (db : Catalog) (fuel : Nat) :
    ∀ (turns : List (String × Except String String)) (s : AgentState),
    ∃ s2, runTurns db (fuel + 1) turns (some s) = some s2 ∧
      s2.messages = s.messages ++ expectedMessages turns := by
  intro turns
  induction turns with
  | nil => intro s; exact ⟨s, rfl, by simp [expectedMessages]⟩
  | cons t rest ih =>
    intro s
    obtain ⟨m, r⟩ := t
    obtain ⟨s2, h1, h2⟩ := ih (chat db (fuel + 1) (some s) m r)
    refine ⟨s2, h1, ?_⟩
    rw [h2, chat_some_messages]
    simp [expectedMessages]

/-- The message list left by a sequence of turns started from no state is
exactly the expected transcript. -/
theorem historyAfter_eq (db : Catalog) (fuel : Nat)
    (turns : List (String × Except String String)) :
    historyAfter db (fuel + 1) turns = expectedMessages turns := by
  cases turns with
  | nil => rfl
  | cons t rest =>
    obtain ⟨m, r⟩ := t
    obtain ⟨s2, h1, h2⟩ := runTurns_some db fuel rest (chat db (fuel + 1) none m r)
    simp only [historyAfter, runTurns, h1, h2, chat_none_messages]
    simp [expectedMessages]

/-- The expected transcript has two messages per turn. -/
theorem expectedMessages_length
    (turns : List (String × Except String String)) :
    (expectedMessages turns).length = 2 * turns.length := by
  induction turns with
  | nil => rfl
  | cons t rest ih =>
    obtain ⟨m, r⟩ := t
    simp [expectedMessages, ih]
    omega

/-- The expected transcript alternates roles starting with the user. -/
theorem expectedMessages_alt
    (turns : List (String × Except String String)) :
    altFrom "user" (expectedMessages turns) = true := by
  induction turns with
  | nil => rfl
  | cons t rest ih =>
    obtain ⟨m, r⟩ := t
    simpa [expectedMessages, altFrom] using ih

end LG

namespace CO

/-- A sequence of all-successful turns appends exactly the expected
transcript to the history. -/
theorem runTurns_ok_history (turns : List (String × String)) :
    ∀ a : Agent,
    (runTurns a (turns.map (fun p => (p.1, Except.ok p.2)))).history =
      a.history ++ expectedHistory turns := by
  induction turns with
  | nil => intro a; simp [runTurns, expectedHistory]
  | cons t rest ih =>
    intro a
    obtain ⟨m, reply⟩ := t
    simp only [List.map_cons, runTurns]
    rw [ih]
    simp [chat, expectedHistory]

/-- The expected transcript has two messages per turn. -/
theorem expectedHistory_length (turns : List (String × String)) :
    (expectedHistory turns).length = 2 * turns.length := by
  induction turns with
  | nil => rfl
  | cons t rest ih =>
    obtain ⟨m, r⟩ := t
    simp [expectedHistory, ih]
    omega

/-- The expected transcript alternates roles starting with the user. -/
theorem expectedHistory_alt (turns : List (String × String)) :
    altFrom "user" (expectedHistory turns) = true := by
  induction turns with
  | nil => rfl
  | cons t rest ih =>
    obtain ⟨m, r⟩ := t
    simpa [expectedHistory, altFrom] using ih

end CO

/-- C1 (amended): for the `claudandlanggraph.py` variant, any sequence of N
`chat` turns from an empty history leaves exactly the expected transcript
— 2N messages, one user and one assistant message per turn, roles strictly
alternating starting with user — whatever the completion outcomes; for the
`claudeonly.py` variant the same holds for any sequence of N turns whose
completion calls all succeed (a failing turn leaves the history unchanged,
see C10). -/
theorem claim_C1_amended :
    (∀ (db : Catalog) (fuel : Nat)
      (turns : List (String × Except String String)),
      LG.historyAfter db (fuel + 1) turns = LG.expectedMessages turns ∧
      (LG.historyAfter db (fuel + 1) turns).length = 2 * turns.length ∧
      altFrom "user" (LG.historyAfter db (fuel + 1) turns) = true) ∧
    (∀ (key : String) (turns : List (String × String)),
      (CO.runTurns (CO.freshAgent key)
          (turns.map (fun p => (p.1, Except.ok p.2)))).history =
        CO.expectedHistory turns ∧
      (CO.runTurns (CO.freshAgent key)
          (turns.map (fun p => (p.1, Except.ok p.2)))).history.length =
        2 * turns.length ∧
      altFrom "user" ((CO.runTurns (CO.freshAgent key)
          (turns.map (fun p => (p.1, Except.ok p.2)))).history) = true) := by
  constructor
  · intro db fuel turns
    rw [LG.historyAfter_eq]
    exact ⟨rfl, LG.expectedMessages_length turns, LG.expectedMessages_alt turns⟩
  · intro key turns
    have h := CO.runTurns_ok_history turns (CO.freshAgent key)
    rw [show (CO.freshAgent key).history = [] from rfl, List.nil_append] at h
    rw [h]
    exact ⟨rfl, CO.expectedHistory_length turns, CO.expectedHistory_alt turns⟩

/-- C1 (counterexample): in `claudeonly.py`, one `chat` call whose
completion raises leaves the history with 0 messages, not the 2 the claim
demands for N = 1. -/
theorem claim_C1_counterexample :
    (CO.runTurns (CO.freshAgent "key")
        [("hi", Except.error "network down")]).history.length ≠
      2 * [("hi", (Except.error "network down" : Except String String))].length := by
  decide

/-- C2 (amended): in `claudandlanggraph.py`, an exception during the turn
is caught inside `process_step`: the fixed apology string is appended as
the assistant message exactly as a successful reply would be and the turn
is marked complete.  In `claudeonly.py` the exception also does not
propagate, but the apology is only returned to the caller: the agent (and
its history) is left unchanged and no completion flag exists. -/
theorem claim_C2_amended :
    (∀ (db : Catalog) (s : LG.AgentState) (e : String),
      (LG.process_step db s (Except.error e)).messages =
        s.messages ++ [{ role := "assistant", content := apologyText }] ∧
      (LG.process_step db s (Except.error e)).completed = true) ∧
    (∀ (a : CO.Agent) (m e : String),
      CO.chat a m (Except.error e) = (a, apologyText)) := by
  constructor
  · intro db s e
    refine ⟨?_, LG.process_step_completed db s _⟩
    cases hl : s.messages.getLast? <;> simp [LG.process_step, hl]
  · intro a m e
    rfl

/-- C2 (counterexample): in `claudeonly.py`, a failing completion during
`chat` leaves the history empty — the apology string is returned but not
appended to history, contradicting the claim that it is appended exactly
as a successful reply would be. -/
theorem claim_C2_counterexample :
    (CO.chat (CO.freshAgent "key") "hello" (Except.error "boom")).1.history
        = [] ∧
    (CO.chat (CO.freshAgent "key") "hello" (Except.error "boom")).2
        = apologyText :=
  ⟨rfl, rfl⟩

/-- C3: both prompt builders are deterministic pure functions of the
catalog, the history window, and the new user message: equal inputs give
byte-identical prompt texts. -/
theorem claim_C3 : ∀ (db1 db2 : Catalog) (h1 h2 : List Message)
    (m1 m2 : String), db1 = db2 → h1 = h2 → m1 = m2 →
    CO.create_prompt db1 h1 m1 = CO.create_prompt db2 h2 m2 ∧
    LG.processPrompt db1 h1 m1 = LG.processPrompt db2 h2 m2 := by
  intro db1 db2 h1 h2 m1 m2 e1 e2 e3
  subst e1; subst e2; subst e3
  exact ⟨rfl, rfl⟩

/-- C3 (witness): the determinism theorem applied at a concrete catalog,
history and message. -/
theorem claim_C3_witness :
    CO.create_prompt PRODUCT_DB [] "What laptops do you have?" =
      CO.create_prompt PRODUCT_DB [] "What laptops do you have?" ∧
    LG.processPrompt PRODUCT_DB [] "What laptops do you have?" =
      LG.processPrompt PRODUCT_DB [] "What laptops do you have?" :=
  claim_C3 PRODUCT_DB PRODUCT_DB [] [] _ _ rfl rfl rfl

/-- C4: the history window `self.history[-5:]` returns the last
`min 5 length` messages of any history, in original order (a suffix); on
a concrete 12-message history it is exactly the last 5, and on a concrete
3-message history it is all 3. -/
theorem claim_C4 :
    (∀ h : List Message, (CO.recentWindow h).length = min 5 h.length ∧
      CO.recentWindow h <:+ h) ∧
    CO.recentWindow demoTwelve = demoTwelve.drop 7 ∧
    CO.recentWindow demoThree = demoThree := by
  refine ⟨fun h => ⟨?_, List.drop_suffix _ _⟩, by decide, by decide⟩
  simp [CO.recentWindow]
  omega

/-- C5: catalog lookup at `"laptop"` yields price 999.99 and availability
`In Stock`, and lookup at any key outside the catalog yields `none`, not
an error. -/
theorem claim_C5 :
    (catalogLookup "laptop").map (fun p => (p.price, p.availability)) =
      some (999.99, "In Stock") ∧
    ∀ k : String, k ∉ PRODUCT_DB.map Prod.fst → catalogLookup k = none :=
  ⟨rfl, fun k hk => lookup_none_of_not_mem PRODUCT_DB k hk⟩

/-- C5 (witness): the lookup theorem applied at the concrete unknown key
`toaster`. -/
theorem claim_C5_witness :
    "toaster" ∉ PRODUCT_DB.map Prod.fst ∧ catalogLookup "toaster" = none :=
  ⟨by decide, claim_C5.2 "toaster" (by decide)⟩

/-- C6: construction with no api_key argument and no environment key (or an
empty one) raises the `ValueError`, and construction with a non-empty
credential — passed as argument or found in the environment — succeeds.
The embedded constructor makes no completion-client call at all. -/
theorem claim_C6 :
    CO.initAgent none none = Except.error missingKeyError ∧
    CO.initAgent none (some "") = Except.error missingKeyError ∧
    (∀ (k : String) (envKey : Option String), k ≠ "" →
      CO.initAgent (some k) envKey = Except.ok (CO.freshAgent k)) ∧
    (∀ e : String, e ≠ "" →
      CO.initAgent none (some e) = Except.ok (CO.freshAgent e)) := by
  refine ⟨rfl, rfl, ?_, ?_⟩
  · intro k envKey hk
    simp [CO.initAgent, resolveApiKey, hk]
  · intro e he
    simp [CO.initAgent, resolveApiKey, he]

/-- C6 (witness): the construction theorem applied at a concrete non-empty
credential. -/
theorem claim_C6_witness :
    ("sk-ant-test" ≠ "") ∧
    CO.initAgent (some "sk-ant-test") none =
      Except.ok (CO.freshAgent "sk-ant-test") :=
  ⟨by decide, claim_C6.2.2.1 "sk-ant-test" none (by decide)⟩

/-- C7: the transcript formatter renders one line per message in original
order — `Customer: ` before user content, `Assistant: ` before everything
else — joined by newlines. -/
theorem claim_C7 : ∀ msgs : List Message,
    formatTranscript msgs =
      String.intercalate "\n" (msgs.map specTranscriptLine) ∧
    (msgs.map specTranscriptLine).length = msgs.length := by
  intro msgs
  refine ⟨?_, by simp⟩
  unfold formatTranscript
  have hfun : (fun msg : Message =>
      (if msg.role == "user" then "Customer" else "Assistant") ++ ": " ++
        msg.content) = specTranscriptLine := by
    funext m
    cases hb : m.role == "user" <;> simp only [specTranscriptLine, hb] <;> rfl
  rw [hfun]

/-- C8: every state produced by one application of `process_step` — on
success or failure — is completed and routes `should_continue` to `"end"`,
and with any positive fuel the graph therefore performs exactly one
execution of the `process` node. -/
theorem claim_C8 : ∀ (db : Catalog) (s : LG.AgentState)
    (res : Except String String),
    (LG.process_step db s res).completed = true ∧
    LG.should_continue (LG.process_step db s res) = "end" ∧
    ∀ (fuel : Nat) (results : List (Except String String)),
      LG.runGraph db (fuel + 1) s results =
        LG.process_step db s
          (results.headD (Except.error "no completion result")) := by
  intro db s res
  exact ⟨LG.process_step_completed db s res,
    LG.should_continue_of_completed _ (LG.process_step_completed db s res),
    fun fuel results => LG.runGraph_succ db fuel s results⟩

/-- C9: no operation of the conversational flow mutates the catalog: the
`product_db` (and context copy) carried by the state or agent is unchanged
by `process_step` and by `chat` in both variants, and a fresh `chat` state
carries exactly the agent catalog. -/
theorem claim_C9 : ∀ (db : Catalog) (s : LG.AgentState)
    (res : Except String String) (fuel : Nat) (a : CO.Agent) (m : String),
    (LG.process_step db s res).product_db = s.product_db ∧
    (LG.process_step db s res).context_product_db = s.context_product_db ∧
    (LG.chat db fuel (some s) m res).product_db = s.product_db ∧
    (LG.chat db fuel none m res).product_db = db ∧
    (CO.chat a m res).1.product_db = a.product_db := by
  intro db s res fuel a m
  refine ⟨(LG.process_step_db db s res).1, (LG.process_step_db db s res).2,
    ?_, ?_, ?_⟩
  · exact (LG.runGraph_db db fuel _ _).1
  · exact (LG.runGraph_db db fuel _ _).1
  · cases res <;> rfl

/-- C10: in `claudeonly.py`, a completion exception during `chat` leaves
the history (indeed the whole agent) unchanged and only returns the fixed
apology string to the caller: the turn is atomic on error. -/
theorem claim_C10 : ∀ (a : CO.Agent) (m e : String),
    (CO.chat a m (Except.error e)).1.history = a.history ∧
    (CO.chat a m (Except.error e)).2 = apologyText := by
  intro a m e
  exact ⟨rfl, rfl⟩
